import Mathlib

/-!
Shallow embedding of the Micro-Manager device adapter
`ThorlabsKinesisTCubeServo` (`src/Build/ThorlabsKinesisTCubeServo.h` and
`src/Build/ThorlabsKinesisTCubeServo.cpp`): the adapter member state, the
Stage API operations and the property-action callbacks.

Responses from the environment (vendor Kinesis SDK replies such as
`CC_CanHome` or `CC_GetPosition`, and framework status values) are passed to
each operation as explicit parameters; vendor calls the adapter issues are
recorded as a trace of `DownstreamCall` events.  C++ `double` / `float` /
`int` arithmetic is modelled over `ℚ` (idealised exact arithmetic).
-/

set_option linter.unusedVariables false

/-- Status code `DEVICE_OK` (from MMDeviceConstants.h, external to this
repository; only its identity and distinctness from other codes matter). -/
def DEVICE_OK : Int := 0

/-- Status code `DEVICE_UNSUPPORTED_COMMAND` (from MMDeviceConstants.h,
external to this repository). -/
def DEVICE_UNSUPPORTED_COMMAND : Int := 11

/-- The adapter's member state (ThorlabsKinesisTCubeServo.h, lines 111-158).
Numeric members are modelled over `ℚ` (`pfAccn` and `chNumber_`, C++ `int` /
`long`, over `Int`); members that no modelled operation reads or writes
(logging buffers, trigger fields, unused Kinesis fields) are omitted. -/
structure AdapterState where
  deviceName_ : String
  chNumber_ : Int
  serialNumber_ : String
  stepSizeUm_ : ℚ
  initialized_ : Bool
  busy_ : Bool
  homed_ : Bool
  answerTimeoutMs_ : ℚ
  minTravelUm_ : ℚ
  maxTravelUm_ : ℚ
  curPosUm_ : ℚ
  pfPosition : ℚ
  newPosition : ℚ
  pfMaxVel : ℚ
  pfAccn : Int
  pfMaxAccn : ℚ
  pfMinPos : ℚ
  pfMaxPos : ℚ
  posUm_ : ℚ
  deriving DecidableEq

/-- The default-constructed adapter after the constructor member-initialiser
list (cpp lines 134-163) and `init` (cpp lines 361-505) ran: device TDC001,
channel 1, travel limits 0..50000 µm, `pfMinPos` / `pfMaxPos` taken from
those limits (cpp lines 468-469).  C++ members the source leaves
uninitialised (`pfPosition`, `newPosition`, `pfMaxVel`, `pfAccn`,
`pfMaxAccn`, `posUm_`) are modelled as 0. -/
def initialState : AdapterState :=
  { deviceName_ := "TDC001"
    chNumber_ := 1
    serialNumber_ := ""
    stepSizeUm_ := 1 / 10
    initialized_ := false
    busy_ := false
    homed_ := false
    answerTimeoutMs_ := 1000
    minTravelUm_ := 0
    maxTravelUm_ := 50000
    curPosUm_ := 0
    pfPosition := 0
    newPosition := 0
    pfMaxVel := 0
    pfAccn := 0
    pfMaxAccn := 0
    pfMinPos := 0
    pfMaxPos := 50000
    posUm_ := 0 }

/-- A call the adapter issues downstream into the vendor Kinesis library (or,
for `stagePositionChanged`, the upstream framework notification
`OnStagePositionChanged`). -/
inductive DownstreamCall where
  | moveToPosition (serialNo : String) (pos : ℚ)
  | ccHome (serialNo : String)
  | canHomeQuery (serialNo : String)
  | setVelParams (serialNo : String) (accn : Int) (vel : ℚ)
  | ccClose (serialNo : String)
  | stagePositionChanged (posUm : ℚ)
  deriving DecidableEq

/-- Result of an operation with no out-parameter: the new adapter state, the
calls issued, and the returned status code. -/
structure OpResult where
  state : AdapterState
  calls : List DownstreamCall
  ret : Int
  deriving DecidableEq

/-- Result of an operation with a `double&` position out-parameter. -/
structure PosResult where
  state : AdapterState
  posUm : ℚ
  ret : Int
  deriving DecidableEq

/-- Result of an operation with a `long&` out-parameter. -/
structure StepsResult where
  state : AdapterState
  steps : Int
  ret : Int
  deriving DecidableEq

/-- Result of `GetLimits`: the two `double&` out-parameters and the status. -/
structure LimitsResult where
  state : AdapterState
  min : ℚ
  max : ℚ
  ret : Int
  deriving DecidableEq

/-- Result of `GetVelParam`: the `double&` velocity out-parameter. -/
structure VelResult where
  state : AdapterState
  vel : ℚ
  ret : Int
  deriving DecidableEq

/-- Micrometres → encoder counts, the conversion of `SetPositionUmFlag`
(cpp line 526): `newPosition = (float)curPosUm_ / 1000 * 34304`. -/
def umToCounts (posUm : ℚ) : ℚ := posUm / 1000 * 34304

/-- Encoder counts → micrometres, the conversion of `GetPositionUm`
(cpp line 300): `curPosUm_ = (double)pfPosition / 34304 * 1000`. -/
def countsToUm (counts : ℚ) : ℚ := counts / 34304 * 1000

/-- `SetPositionUmFlag` (cpp lines 519-534): clamp the target into
`[minTravelUm_, maxTravelUm_]` (lower bound checked first), cache the clamped
value in `curPosUm_`, convert it to encoder counts into `newPosition`, issue
`CC_MoveToPosition`, notify `OnStagePositionChanged`, return `DEVICE_OK`. -/
def SetPositionUmFlag (s : AdapterState) (posUm : ℚ) (continuousFlag : Int) :
    OpResult :=
  let posUm := if posUm < s.minTravelUm_ then s.minTravelUm_
    else if posUm > s.maxTravelUm_ then s.maxTravelUm_
    else posUm
  let s := { s with curPosUm_ := posUm }
  let s := { s with newPosition := umToCounts s.curPosUm_ }
  { state := s
    calls := [DownstreamCall.moveToPosition s.serialNumber_ s.newPosition,
              DownstreamCall.stagePositionChanged s.curPosUm_]
    ret := DEVICE_OK }

/-- `SetPositionUm` (cpp lines 309-312): delegates to `SetPositionUmFlag`
with flag 1. -/
def SetPositionUm (s : AdapterState) (posUm : ℚ) : OpResult :=
  SetPositionUmFlag s posUm 1

/-- `SetPositionUmContinuous` (cpp lines 314-317): delegates to
`SetPositionUmFlag` with flag 1. -/
def SetPositionUmContinuous (s : AdapterState) (posUm : ℚ) : OpResult :=
  SetPositionUmFlag s posUm 1

/-- `GetPositionUm` (cpp lines 295-307): reads the device position in encoder
counts (`CC_GetPosition` response `devCounts`) into `pfPosition`, caches the
micrometre value in `curPosUm_` and reports it. -/
def GetPositionUm (s : AdapterState) (devCounts : ℚ) : PosResult :=
  let s := { s with pfPosition := devCounts }
  let s := { s with curPosUm_ := countsToUm s.pfPosition }
  { state := s, posUm := s.curPosUm_, ret := DEVICE_OK }

/-- `SetOrigin` (cpp lines 319-322): unsupported. -/
def SetOrigin (s : AdapterState) : OpResult :=
  { state := s, calls := [], ret := DEVICE_UNSUPPORTED_COMMAND }

/-- `SetPositionSteps` (cpp lines 324-328): overwrites its local parameter
with `(long)0.1` (which truncates to 0) and returns `DEVICE_OK`; no member is
written and no vendor call is made. -/
def SetPositionSteps (s : AdapterState) (steps : Int) : OpResult :=
  let steps := (0 : Int)
  { state := s, calls := [], ret := DEVICE_OK }

/-- `GetPositionSteps` (cpp lines 330-334): copies the caller-supplied
`steps` value into `stepSizeUm_` (the out-parameter itself is never written)
and returns `DEVICE_OK`. -/
def GetPositionSteps (s : AdapterState) (steps : Int) : StepsResult :=
  { state := { s with stepSizeUm_ := (steps : ℚ) }, steps := steps
    ret := DEVICE_OK }

/-- `GetLimits` (cpp lines 336-347): writes the cached travel range to its
out-parameters; no state change. -/
def GetLimits (s : AdapterState) : LimitsResult :=
  { state := s, min := s.minTravelUm_, max := s.maxTravelUm_, ret := DEVICE_OK }

/-- `SetLimits` (cpp lines 349-354): stores both arguments unvalidated. -/
def SetLimits (s : AdapterState) (mn mx : ℚ) : OpResult :=
  { state := { s with minTravelUm_ := mn, maxTravelUm_ := mx }
    calls := [], ret := DEVICE_OK }

/-- `Shutdown` (cpp lines 272-281): clears `initialized_` when set, closes
the vendor handle, always returns `DEVICE_OK`. -/
def Shutdown (s : AdapterState) : OpResult :=
  let s := if s.initialized_ then { s with initialized_ := false } else s
  { state := s, calls := [DownstreamCall.ccClose s.serialNumber_]
    ret := DEVICE_OK }

/-- `Home` (cpp lines 543-561): always issues `CC_Home`; if `homed_` is
already set the call returns early without touching the flag; otherwise it
queries `CC_CanHome` (response `canHome`) and sets `homed_` to false when the
device can home and to true when it cannot. -/
def Home (s : AdapterState) (canHome : Bool) : OpResult :=
  if s.homed_ then
    { state := s, calls := [DownstreamCall.ccHome s.serialNumber_]
      ret := DEVICE_OK }
  else if canHome then
    { state := { s with homed_ := false }
      calls := [DownstreamCall.ccHome s.serialNumber_,
                DownstreamCall.canHomeQuery s.serialNumber_]
      ret := DEVICE_OK }
  else
    { state := { s with homed_ := true }
      calls := [DownstreamCall.ccHome s.serialNumber_,
                DownstreamCall.canHomeQuery s.serialNumber_]
      ret := DEVICE_OK }

/-- `GetVelParam` (cpp lines 563-570): refreshes `pfMaxVel` and `pfMaxAccn`
from the device (`CC_GetMotorVelocityLimits` responses) and reports
`pfMaxVel`. -/
def GetVelParam (s : AdapterState) (devMaxVel devMaxAccn : ℚ) : VelResult :=
  let s := { s with pfMaxVel := devMaxVel, pfMaxAccn := devMaxAccn }
  { state := s, vel := s.pfMaxVel, ret := DEVICE_OK }

/-- `SetVelParam` (cpp lines 572-577): ignores its `vel` argument and sends
the cached `pfAccn` and `pfMaxVel` via `CC_SetVelParams`. -/
def SetVelParam (s : AdapterState) (vel : ℚ) : OpResult :=
  { state := s
    calls := [DownstreamCall.setVelParams s.serialNumber_ s.pfAccn s.pfMaxVel]
    ret := DEVICE_OK }

/-- `Initialize` (cpp lines 200-270): refreshes the velocity limits and the
current position from the device, registers properties with the framework,
then marks the adapter initialised when `UpdateStatus` (framework call,
response `updateStatusRet`) returned `DEVICE_OK`; otherwise its status is
propagated and `initialized_` stays untouched. -/
def Initialize (s : AdapterState) (devMaxVel devMaxAccn devPos : ℚ)
    (updateStatusRet : Int) : OpResult :=
  let s := { s with pfMaxVel := devMaxVel, pfMaxAccn := devMaxAccn
                    posUm_ := devPos }
  if updateStatusRet ≠ DEVICE_OK then
    { state := s, calls := [], ret := updateStatusRet }
  else
    { state := { s with initialized_ := true }, calls := [], ret := DEVICE_OK }

/-- `OnSerialNumber`, `AfterSet` branch (cpp lines 589-602): the property
value is stored into `serialNumber_` (twice in the source: once guarded by
`initialized_`, once unconditionally — the net effect is one store). -/
def OnSerialNumberAfterSet (s : AdapterState) (v : String) : OpResult :=
  { state := { s with serialNumber_ := v }, calls := [], ret := DEVICE_OK }

/-- `OnChannelNumber`, `AfterSet` branch (cpp lines 619-630). -/
def OnChannelNumberAfterSet (s : AdapterState) (v : Int) : OpResult :=
  { state := { s with chNumber_ := v }, calls := [], ret := DEVICE_OK }

/-- The clamp of `minTravelUm_` against `pfMaxPos*1000` / `pfMinPos*1000`
shared by both branches of `OnMinPosUm` (cpp lines 642-645 and 658-661). -/
def clampMinTravel (s : AdapterState) : AdapterState :=
  if s.minTravelUm_ > s.pfMaxPos * 1000 then
    { s with minTravelUm_ := s.pfMaxPos * 1000 }
  else if s.minTravelUm_ < s.pfMinPos * 1000 then
    { s with minTravelUm_ := s.pfMinPos * 1000 }
  else s

/-- The clamp of `maxTravelUm_` against `pfMaxPos*1000` / `pfMinPos*1000`
shared by both branches of `OnMaxPosUm` (cpp lines 674-677 and 692-695). -/
def clampMaxTravel (s : AdapterState) : AdapterState :=
  if s.maxTravelUm_ > s.pfMaxPos * 1000 then
    { s with maxTravelUm_ := s.pfMaxPos * 1000 }
  else if s.maxTravelUm_ < s.pfMinPos * 1000 then
    { s with maxTravelUm_ := s.pfMinPos * 1000 }
  else s

/-- `OnMinPosUm`, `BeforeGet` branch (cpp lines 640-647). -/
def OnMinPosUmBeforeGet (s : AdapterState) : OpResult :=
  { state := clampMinTravel s, calls := [], ret := DEVICE_OK }

/-- `OnMinPosUm`, `AfterSet` branch (cpp lines 648-662): the property value
`v` is stored into `minTravelUm_` and then clamped. -/
def OnMinPosUmAfterSet (s : AdapterState) (v : ℚ) : OpResult :=
  { state := clampMinTravel { s with minTravelUm_ := v }
    calls := [], ret := DEVICE_OK }

/-- `OnMaxPosUm`, `BeforeGet` branch (cpp lines 672-679). -/
def OnMaxPosUmBeforeGet (s : AdapterState) : OpResult :=
  { state := clampMaxTravel s, calls := [], ret := DEVICE_OK }

/-- `OnMaxPosUm`, `AfterSet` branch (cpp lines 681-696). -/
def OnMaxPosUmAfterSet (s : AdapterState) (v : ℚ) : OpResult :=
  { state := clampMaxTravel { s with maxTravelUm_ := v }
    calls := [], ret := DEVICE_OK }

/-- `OnPosition`, `BeforeGet` branch (cpp lines 706-714): delegates to
`GetPositionUm`. -/
def OnPositionBeforeGet (s : AdapterState) (devCounts : ℚ) : PosResult :=
  GetPositionUm s devCounts

/-- `OnPosition`, `AfterSet` branch (cpp lines 715-722): delegates to
`SetPositionUm`. -/
def OnPositionAfterSet (s : AdapterState) (v : ℚ) : OpResult :=
  SetPositionUm s v

/-- `OnVelocity`, `BeforeGet` branch (cpp lines 730-739). -/
def OnVelocityBeforeGet (s : AdapterState) (devMaxVel devMaxAccn : ℚ) :
    VelResult :=
  GetVelParam s devMaxVel devMaxAccn

/-- `OnVelocity`, `AfterSet` branch (cpp lines 740-747). -/
def OnVelocityAfterSet (s : AdapterState) (v : ℚ) : OpResult :=
  SetVelParam s v

/-- `OnHome`, `BeforeGet` branch (cpp lines 754-757): reports `homed_` as an
integer property value; no state change. -/
def OnHomeBeforeGet (s : AdapterState) : StepsResult :=
  { state := s, steps := if s.homed_ then 1 else 0, ret := DEVICE_OK }

/-- `OnHome`, `AfterSet` branch (cpp lines 758-766): delegates to `Home`. -/
def OnHomeAfterSet (s : AdapterState) (canHome : Bool) : OpResult :=
  Home s canHome

/-- One invocation of a modelled adapter operation or property callback; the
environment's responses (device replies, framework status) are carried as
constructor arguments. -/
inductive Op where
  | opInitialize (devMaxVel devMaxAccn devPos : ℚ) (updateStatusRet : Int)
  | opShutdown
  | opSetPositionUm (p : ℚ)
  | opSetPositionUmContinuous (p : ℚ)
  | opGetPositionUm (devCounts : ℚ)
  | opSetOrigin
  | opSetPositionSteps (steps : Int)
  | opGetPositionSteps (steps : Int)
  | opGetLimits
  | opSetLimits (mn mx : ℚ)
  | opHome (canHome : Bool)
  | opGetVelParam (devMaxVel devMaxAccn : ℚ)
  | opSetVelParam (v : ℚ)
  | opOnSerialNumberAfterSet (v : String)
  | opOnChannelNumberAfterSet (v : Int)
  | opOnMinPosUmBeforeGet
  | opOnMinPosUmAfterSet (v : ℚ)
  | opOnMaxPosUmBeforeGet
  | opOnMaxPosUmAfterSet (v : ℚ)
  | opOnPositionBeforeGet (devCounts : ℚ)
  | opOnPositionAfterSet (v : ℚ)
  | opOnVelocityBeforeGet (devMaxVel devMaxAccn : ℚ)
  | opOnVelocityAfterSet (v : ℚ)
  | opOnHomeBeforeGet
  | opOnHomeAfterSet (canHome : Bool)

/-- The adapter state reached by running one operation. -/
def step (s : AdapterState) : Op → AdapterState
  | .opInitialize a b c r => (Initialize s a b c r).state
  | .opShutdown => (Shutdown s).state
  | .opSetPositionUm p => (SetPositionUm s p).state
  | .opSetPositionUmContinuous p => (SetPositionUmContinuous s p).state
  | .opGetPositionUm c => (GetPositionUm s c).state
  | .opSetOrigin => (SetOrigin s).state
  | .opSetPositionSteps n => (SetPositionSteps s n).state
  | .opGetPositionSteps n => (GetPositionSteps s n).state
  | .opGetLimits => (GetLimits s).state
  | .opSetLimits a b => (SetLimits s a b).state
  | .opHome c => (Home s c).state
  | .opGetVelParam a b => (GetVelParam s a b).state
  | .opSetVelParam v => (SetVelParam s v).state
  | .opOnSerialNumberAfterSet v => (OnSerialNumberAfterSet s v).state
  | .opOnChannelNumberAfterSet v => (OnChannelNumberAfterSet s v).state
  | .opOnMinPosUmBeforeGet => (OnMinPosUmBeforeGet s).state
  | .opOnMinPosUmAfterSet v => (OnMinPosUmAfterSet s v).state
  | .opOnMaxPosUmBeforeGet => (OnMaxPosUmBeforeGet s).state
  | .opOnMaxPosUmAfterSet v => (OnMaxPosUmAfterSet s v).state
  | .opOnPositionBeforeGet c => (OnPositionBeforeGet s c).state
  | .opOnPositionAfterSet v => (OnPositionAfterSet s v).state
  | .opOnVelocityBeforeGet a b => (OnVelocityBeforeGet s a b).state
  | .opOnVelocityAfterSet v => (OnVelocityAfterSet s v).state
  | .opOnHomeBeforeGet => (OnHomeBeforeGet s).state
  | .opOnHomeAfterSet c => (OnHomeAfterSet s c).state

/-- Adapter states reachable from the freshly constructed adapter by running
modelled operations. -/
inductive Reachable : AdapterState → Prop
  | init : Reachable initialState
  | step {s : AdapterState} (op : Op) : Reachable s → Reachable (step s op)

/-! ## Claims -/

/-- C1, counterexample: with the reachable limits state min = 10 > max = 0
(set via `SetLimits`), the target 5 exceeds max, yet the clamp of
`SetPositionUm` caches min = 10, not max = 0 as the claim requires for
`p > max`. -/
theorem C1_cex :
    (5 : ℚ) > (SetLimits initialState 10 0).state.maxTravelUm_ ∧
    (SetPositionUm (SetLimits initialState 10 0).state 5).state.curPosUm_ =
      (SetLimits initialState 10 0).state.minTravelUm_ ∧
    (SetPositionUm (SetLimits initialState 10 0).state 5).state.curPosUm_ ≠
      (SetLimits initialState 10 0).state.maxTravelUm_ := by
  refine ⟨by norm_num [SetLimits, initialState], ?_, ?_⟩ <;>
    norm_num [SetPositionUm, SetPositionUmFlag, SetLimits, initialState]

/-- C1, amended with the hypothesis `minTravelUm_ ≤ maxTravelUm_` (which the
adapter does not in fact maintain): `SetPositionUm p` issues a move whose
micrometre target is min when `p < min`, max when `p > max`, and `p` itself
when `min ≤ p ≤ max`; the clamped value is cached in `curPosUm_` and the call
returns `DEVICE_OK`. -/
theorem C1_setPositionUm_clamps (s : AdapterState) (p : ℚ)
    (hmm : s.minTravelUm_ ≤ s.maxTravelUm_) :
    (p < s.minTravelUm_ →
      (SetPositionUm s p).calls =
        [DownstreamCall.moveToPosition s.serialNumber_
          (umToCounts s.minTravelUm_),
         DownstreamCall.stagePositionChanged s.minTravelUm_] ∧
      (SetPositionUm s p).state.curPosUm_ = s.minTravelUm_) ∧
    (p > s.maxTravelUm_ →
      (SetPositionUm s p).calls =
        [DownstreamCall.moveToPosition s.serialNumber_
          (umToCounts s.maxTravelUm_),
         DownstreamCall.stagePositionChanged s.maxTravelUm_] ∧
      (SetPositionUm s p).state.curPosUm_ = s.maxTravelUm_) ∧
    (s.minTravelUm_ ≤ p → p ≤ s.maxTravelUm_ →
      (SetPositionUm s p).calls =
        [DownstreamCall.moveToPosition s.serialNumber_ (umToCounts p),
         DownstreamCall.stagePositionChanged p] ∧
      (SetPositionUm s p).state.curPosUm_ = p) ∧
    (SetPositionUm s p).ret = DEVICE_OK := by
  unfold SetPositionUm SetPositionUmFlag
  refine ⟨?_, ?_, ?_, rfl⟩
  · intro h
    rw [if_pos h]
    exact ⟨rfl, rfl⟩
  · intro h
    rw [if_neg (not_lt.2 (le_of_lt (lt_of_le_of_lt hmm h))), if_pos h]
    exact ⟨rfl, rfl⟩
  · intro h1 h2
    rw [if_neg (not_lt.2 h1), if_neg (not_lt.2 h2)]
    exact ⟨rfl, rfl⟩

/-- C1 witness: from the initial state (limits 0..50000), the out-of-range
target 60000 is clamped to max. -/
theorem C1_setPositionUm_clamps_witness :
    (SetPositionUm initialState 60000).state.curPosUm_ =
      initialState.maxTravelUm_ :=
  ((C1_setPositionUm_clamps initialState 60000
      (by norm_num [initialState])).2.1
    (by norm_num [initialState])).2

/-- C2: for a target within the travel range, the µm → counts conversion
performed by `SetPositionUm` (into `newPosition`) followed by the
counts → µm conversion performed by `GetPositionUm` recovers the position
exactly — the model's `ℚ` arithmetic is exact, hence within any
floating-point tolerance. -/
theorem C2_roundTrip (s : AdapterState) (p : ℚ)
    (h1 : s.minTravelUm_ ≤ p) (h2 : p ≤ s.maxTravelUm_) :
    (GetPositionUm (SetPositionUm s p).state
      (SetPositionUm s p).state.newPosition).posUm = p := by
  unfold GetPositionUm SetPositionUm SetPositionUmFlag countsToUm umToCounts
  rw [if_neg (not_lt.2 h1), if_neg (not_lt.2 h2)]
  show p / 1000 * 34304 / 34304 * 1000 = p
  norm_num

/-- C2 witness: round trip at p = 7 from the initial state. -/
theorem C2_roundTrip_witness :
    (GetPositionUm (SetPositionUm initialState 7).state
      (SetPositionUm initialState 7).state.newPosition).posUm = 7 :=
  C2_roundTrip initialState 7 (by norm_num [initialState])
    (by norm_num [initialState])

/-- C3, counterexample: an adapter already homed (reached by a first `Home`
with `CC_CanHome` = false) keeps `homed_` = true after a second `Home` even
though the device now reports `CC_CanHome` = true, where the claim requires
false. -/
theorem C3_cex :
    (Home (Home initialState false).state true).state.homed_ ≠ false := by
  simp [Home, initialState]

/-- C3, amended: when the adapter is not already homed, `Home` leaves the
homed flag true exactly when the device reported it cannot home
(`CC_CanHome` false) and false when it can (`CC_CanHome` true); when the
adapter was already homed, `Home` returns early and the flag stays true
regardless of the device. -/
theorem C3_home_flag (s : AdapterState) (canHome : Bool) :
    (s.homed_ = false → (Home s canHome).state.homed_ = !canHome) ∧
    (s.homed_ = true → (Home s canHome).state.homed_ = true) := by
  cases h : s.homed_ <;> cases canHome <;> simp [Home, h]

/-- C3 witness: from the initial (not homed) state with `CC_CanHome` false,
the flag ends true. -/
theorem C3_home_flag_witness :
    (Home initialState false).state.homed_ = !false :=
  (C3_home_flag initialState false).1 rfl

/-- C4: `GetLimits` after `SetLimits a b` returns exactly `(a, b)`, and both
calls return `DEVICE_OK`. -/
theorem C4_setGetLimits (s : AdapterState) (a b : ℚ) :
    (SetLimits s a b).ret = DEVICE_OK ∧
    (GetLimits (SetLimits s a b).state).min = a ∧
    (GetLimits (SetLimits s a b).state).max = b ∧
    (GetLimits (SetLimits s a b).state).ret = DEVICE_OK :=
  ⟨rfl, rfl, rfl, rfl⟩

/-- C5, counterexample: the state after `SetLimits 10 0` is reachable from
the initial adapter state and violates `minTravelUm_ ≤ maxTravelUm_`. -/
theorem C5_cex :
    Reachable (step initialState (Op.opSetLimits 10 0)) ∧
    ¬ (step initialState (Op.opSetLimits 10 0)).minTravelUm_ ≤
      (step initialState (Op.opSetLimits 10 0)).maxTravelUm_ := by
  constructor
  · exact Reachable.step _ Reachable.init
  · norm_num [step, SetLimits, initialState]

/-- C5, amended: `min ≤ max` holds in the initial state, but it is not an
invariant of all operations: `SetLimits` stores its arguments unvalidated,
so after `SetLimits a b` the invariant holds exactly when `a ≤ b`. -/
theorem C5_setLimits_invariant (s : AdapterState) (a b : ℚ) :
    initialState.minTravelUm_ ≤ initialState.maxTravelUm_ ∧
    ((SetLimits s a b).state.minTravelUm_ ≤
        (SetLimits s a b).state.maxTravelUm_ ↔ a ≤ b) := by
  constructor
  · norm_num [initialState]
  · simp [SetLimits]

/-- C6: `Shutdown` always returns `DEVICE_OK` and leaves `initialized_`
false, and a second `Shutdown` from the resulting state does the same. -/
theorem C6_shutdown_idempotent (s : AdapterState) :
    (Shutdown s).ret = DEVICE_OK ∧
    (Shutdown s).state.initialized_ = false ∧
    (Shutdown (Shutdown s).state).ret = DEVICE_OK ∧
    (Shutdown (Shutdown s).state).state.initialized_ = false := by
  cases h : s.initialized_ <;> simp [Shutdown, h]

/-- C7, counterexample: `SetPositionSteps 0` returns `DEVICE_OK`, which is
not the unsupported-command status the claim requires for steps-based
positioning. -/
theorem C7_cex :
    (SetPositionSteps initialState 0).ret = DEVICE_OK ∧
    DEVICE_OK ≠ DEVICE_UNSUPPORTED_COMMAND := by
  exact ⟨rfl, by norm_num [DEVICE_OK, DEVICE_UNSUPPORTED_COMMAND]⟩

/-- C7, amended: only `SetOrigin` returns `DEVICE_UNSUPPORTED_COMMAND`;
`SetPositionSteps` and `GetPositionSteps` return `DEVICE_OK` for every input
without issuing any vendor call (`SetPositionSteps` leaves the state
unchanged; `GetPositionSteps` merely overwrites `stepSizeUm_` with the
caller's value). -/
theorem C7_unsupported_ops (s : AdapterState) (n : Int) :
    (SetOrigin s).ret = DEVICE_UNSUPPORTED_COMMAND ∧
    (SetOrigin s).state = s ∧ (SetOrigin s).calls = [] ∧
    (SetPositionSteps s n).ret = DEVICE_OK ∧
    (SetPositionSteps s n).state = s ∧ (SetPositionSteps s n).calls = [] ∧
    (GetPositionSteps s n).ret = DEVICE_OK ∧
    (GetPositionSteps s n).state = { s with stepSizeUm_ := (n : ℚ) } :=
  ⟨rfl, rfl, rfl, rfl, rfl, rfl, rfl, rfl⟩

/-- C8: `SetVelParam` ignores its argument: from any state, two calls with
arbitrary velocities produce identical results — the same `CC_SetVelParams`
call carrying the cached `pfAccn` / `pfMaxVel`, the same state, and
`DEVICE_OK`. -/
theorem C8_setVelParam_ignores_arg (s : AdapterState) (vel1 vel2 : ℚ) :
    SetVelParam s vel1 = SetVelParam s vel2 ∧
    (SetVelParam s vel1).calls =
      [DownstreamCall.setVelParams s.serialNumber_ s.pfAccn s.pfMaxVel] ∧
    (SetVelParam s vel1).state = s ∧
    (SetVelParam s vel1).ret = DEVICE_OK :=
  ⟨rfl, rfl, rfl, rfl⟩

/-- C9: `SetPositionUmContinuous` and `SetPositionUm` coincide on every state
and input: same downstream move, same resulting state, same return value. -/
theorem C9_continuous_eq_setPositionUm (s : AdapterState) (p : ℚ) :
    SetPositionUmContinuous s p = SetPositionUm s p :=
  rfl

/-- C10: the homed flag is monotone: once `homed_` is true it remains true
after every modelled operation and property callback (`Home` returns early;
no other operation writes the flag). -/
theorem C10_homed_monotone (s : AdapterState) (op : Op)
    (h : s.homed_ = true) :
    (step s op).homed_ = true := by
  cases op <;>
    simp only [step, Initialize, Shutdown, SetPositionUm,
      SetPositionUmContinuous, SetPositionUmFlag, GetPositionUm, SetOrigin,
      SetPositionSteps, GetPositionSteps, GetLimits, SetLimits, Home,
      GetVelParam, SetVelParam, OnSerialNumberAfterSet,
      OnChannelNumberAfterSet, OnMinPosUmBeforeGet, OnMinPosUmAfterSet,
      clampMinTravel, OnMaxPosUmBeforeGet, OnMaxPosUmAfterSet,
      clampMaxTravel, OnPositionBeforeGet, OnPositionAfterSet,
      OnVelocityBeforeGet, OnVelocityAfterSet, OnHomeBeforeGet,
      OnHomeAfterSet] <;>
    (try split_ifs) <;> simp_all

/-- C10 witness: an adapter homed by a first `Home` stays homed across
`Shutdown`. -/
theorem C10_homed_monotone_witness :
    (step (Home initialState false).state Op.opShutdown).homed_ = true :=
  C10_homed_monotone (Home initialState false).state Op.opShutdown
    (by simp [Home, initialState])
